import Mathlib

/-!
Verification of the forge-ai backend core: the Line-Indexed Patch Applicator
and Location-Answer Parser (src/backend/chat.py, src/backend/server.py), the
Document Patch Planner (server.py `edit_document`) and the Tool Dispatcher
(server.py `execute_ai_tool`).

Python strings are modelled as `List Char`; `str.split('\n')` and
`'\n'.join` are modelled by `splitNL` / `joinNL` below, and Python's
slice semantics (including negative indices) by `pyTake` / `pyDrop`.
-/

namespace ForgeAI

/-- The newline character, the separator used by every split/join in the source. -/
def NL : Char := '\n'

/-- Python `s.split('\n')`: splitting the empty string yields `[""]`,
and each newline separates two (possibly empty) pieces. -/
def splitNL : List Char → List (List Char)
  | [] => [[]]
  | c :: rest =>
    if c = NL then [] :: splitNL rest
    else
      match splitNL rest with
      | [] => [[c]]
      | l :: ls => (c :: l) :: ls

/-- Python `'\n'.join(parts)`. -/
def joinNL : List (List Char) → List Char
  | [] => []
  | [l] => l
  | l :: l' :: ls => l ++ NL :: joinNL (l' :: ls)

/-- Python slice endpoint conversion: negative indices count from the end
and everything is clamped into `[0, len]` (as `List.take`/`List.drop`
clamp above automatically). -/
def pyIndex (len : Nat) (i : Int) : Nat :=
  (if i < 0 then (len : Int) + i else i).toNat

/-- Python `l[:i]`. -/
def pyTake (l : List α) (i : Int) : List α := l.take (pyIndex l.length i)

/-- Python `l[i:]`. -/
def pyDrop (l : List α) (i : Int) : List α := l.drop (pyIndex l.length i)

/-- Characters stripped by Python `str.strip()` (the ASCII whitespace
actually occurring in oracle replies). -/
def isPySpace (c : Char) : Bool :=
  c = ' ' || c = '\n' || c = '\t' || c = '\r'

/-- Python `s.strip()`. -/
def pyStrip (s : List Char) : List Char :=
  ((s.dropWhile isPySpace).reverse.dropWhile isPySpace).reverse

/-- Python `s.replace(old, new)` with explicit fuel (the fuel `s.length`
always suffices, each step consumes at least one character); scans left to
right replacing non-overlapping occurrences. -/
def pyReplaceFuel : Nat → List Char → List Char → List Char → List Char
  | 0, s, _, _ => s
  | fuel + 1, s, pat, rep =>
    match s with
    | [] => []
    | c :: rest =>
      if pat ≠ [] ∧ pat.isPrefixOf (c :: rest) then
        rep ++ pyReplaceFuel fuel ((c :: rest).drop pat.length) pat rep
      else
        c :: pyReplaceFuel fuel rest pat rep

/-- Python `s.replace(old, new)` on `List Char`. -/
def pyReplace (s pat rep : List Char) : List Char :=
  pyReplaceFuel s.length s pat rep

/-- Python `s.replace(old, new)` on `String`. -/
def pyReplaceS (s pat rep : String) : String :=
  ⟨pyReplace s.data pat.data rep.data⟩

/-!
Line-Indexed Patch Applicator — src/backend/chat.py, `apply_insert`
(lines 173-186) and `apply_replace` (lines 189-206).
-/

/-- Number of lines of a Python string: `len(s.split('\n'))` (at least 1,
even for the empty string). -/
def pyLineCount (s : List Char) : Nat := (splitNL s).length

/-- chat.py `apply_insert(original_content, insert_line, new_content)` —
insert `new_content` after 1-indexed line `insert_line`, clamping
out-of-range line numbers. -/
def apply_insert (original_content : List Char) (insert_line : Int)
    (new_content : List Char) : List Char :=
  let lines := splitNL original_content
  if insert_line ≤ 0 then
    new_content ++ NL :: original_content
  else if (lines.length : Int) ≤ insert_line then
    original_content ++ NL :: new_content
  else
    let before := joinNL (pyTake lines insert_line)
    let after := joinNL (pyDrop lines insert_line)
    before ++ NL :: (new_content ++ NL :: after)

/-- chat.py `apply_replace(original_content, start_line, end_line, new_content)` —
replace the 1-indexed inclusive line range with `new_content`; segments that
join to the empty string are omitted from the final join (Python's
`if before:` / `if after:` truthiness tests). -/
def apply_replace (original_content : List Char) (start_line end_line : Int)
    (new_content : List Char) : List Char :=
  let lines := splitNL original_content
  let start_idx : Int := max 0 (start_line - 1)
  let end_idx : Int := min (lines.length : Int) end_line
  let before := joinNL (pyTake lines start_idx)
  let after := joinNL (pyDrop lines end_idx)
  let parts : List (List Char) :=
    (if before = [] then [] else [before])
      ++ [new_content]
      ++ (if after = [] then [] else [after])
  joinNL parts

/-- Index where `apply_insert` splices, as a clamp of the requested line. -/
def clampIdx (n : Int) (len : Nat) : Nat := (min (max n 0) (len : Int)).toNat

/-!
Location-Answer Parser — src/backend/server.py, the `try/except` blocks at
lines 1797-1806 (point mode) and 1878-1888 (range mode) of `edit_document`.

The oracle reply is first stripped, a leading fenced code block is removed,
and the remainder goes through `json.loads` (Python standard library,
external). We model the reply by the outcome of that load:
`failure` when `json.loads` raised (non-JSON text) or the fence cleanup
raised `IndexError` — both are caught by the `except` and fall back;
`nonObject` when the text parsed to a JSON value that is not an object, so
the subsequent `.get` raises `AttributeError`, equally caught; and
`object fields` for a JSON object. Field values are modelled as integers
(the JSON shape the prompt requests); a non-integer value would flow onward
unchanged and fail later outside this parser, which no claim touches.
-/
inductive ParseOutcome where
  | failure
  | nonObject
  | object (fields : List (String × Int))
deriving DecidableEq

/-- Python `d.get(key, default)` on the modelled JSON object. -/
def dict_get (fields : List (String × Int)) (key : String) (default : Int) : Int :=
  match fields.find? (fun kv => kv.1 = key) with
  | some kv => kv.2
  | none => default

/-- server.py lines 1797-1806: parse the point-mode location answer;
`insert_line = step1_result.get("insert_after_line", lineCount)`, any
exception falls back to `lineCount`. -/
def parse_insert_line (outcome : ParseOutcome) (lineCount : Int) : Int :=
  match outcome with
  | .object fields => dict_get fields "insert_after_line" lineCount
  | _ => lineCount

/-- server.py lines 1878-1888: parse the range-mode location answer;
`start_line = step1_result.get("start_line", 1)` and
`end_line = step1_result.get("end_line", lineCount)`, any exception falls
back to `(1, lineCount)`. -/
def parse_replace_range (outcome : ParseOutcome) (lineCount : Int) : Int × Int :=
  match outcome with
  | .object fields =>
    (dict_get fields "start_line" 1, dict_get fields "end_line" lineCount)
  | _ => (1, lineCount)

/-!
Record store model — the external Mongo collections `projects`, `files`,
`tasks` used by `execute_ai_tool` and `edit_document`. ObjectId strings are
modelled as opaque ids (`String` for projects, which the code also compares
as raw strings for ownership; `Nat` for files/tasks, whose ids are only
generated and compared); `datetime.now()` is an explicit `now` parameter;
`insert_one` appends the record and draws a fresh id from a counter.
-/

structure ProjectRec where
  id : String
  user_id : String
  last_edited : Nat
deriving DecidableEq

structure FileRec where
  id : Nat
  project_id : String
  name : String
  category : String
  ftype : String
  content : List Char
  priority : Nat
  tags : List String
  pinned : Bool
  created_at : Nat
  last_edited : Nat
deriving DecidableEq

structure TaskRec where
  id : Nat
  project_id : String
  title : String
  description : String
  status : String
  priority : String
  importance : String
  difficulty : String
  quadrant : String
  linked_files : List Nat
  due_date : Option Nat
  created_at : Nat
deriving DecidableEq

structure Store where
  projects : List ProjectRec
  files : List FileRec
  tasks : List TaskRec
  nextId : Nat
deriving DecidableEq

/-- `db.projects.find_one({"_id": ..., "user_id": ...})`. -/
def find_project (projects : List ProjectRec) (pid uid : String) :
    Option ProjectRec :=
  projects.find? (fun p => p.id = pid && p.user_id = uid)

/-- `db.files.find_one({"_id": ...})`. -/
def find_file (files : List FileRec) (fid : Nat) : Option FileRec :=
  files.find? (fun f => f.id = fid)

/-- `db.tasks.find_one({"_id": ...})`. -/
def find_task (tasks : List TaskRec) (tid : Nat) : Option TaskRec :=
  tasks.find? (fun t => t.id = tid)

/-- Mongo `update_one`: rewrite the first record matching the filter. -/
def updateFirst (l : List α) (p : α → Bool) (f : α → α) : List α :=
  match l with
  | [] => []
  | x :: xs => if p x then f x :: xs else x :: updateFirst xs p f

/-- `db.projects.update_one({"_id": pid}, {"$set": {"last_edited": now}})`. -/
def touch_project (projects : List ProjectRec) (pid : String) (now : Nat) :
    List ProjectRec :=
  updateFirst projects (fun p => p.id = pid) (fun p => { p with last_edited := now })

/-!
Tool Dispatcher — src/backend/server.py, `execute_ai_tool`
(lines 1438-1649). The `arguments` dict is modelled by the fields the
dispatcher reads (each `args.get(...)` an `Option`); `updates` dict values
are strings, as for the allow-listed task fields.
-/

/-- One item of `create_tasks`' `tasks` argument. -/
structure TaskItem where
  title : Option String
  description : Option String
  priority : Option String
  importance : Option String
deriving DecidableEq

/-- The `arguments` bag of an `execute-tool` request. -/
structure ToolArgs where
  name : Option String := none
  category : Option String := none
  doc_type : Option String := none
  content : Option (List Char) := none
  file_id : Option Nat := none
  new_content : Option (List Char) := none
  file_name : Option String := none
  tasks : Option (List TaskItem) := none
  task_id : Option Nat := none
  task_title : Option String := none
  updates : List (String × String) := []
deriving DecidableEq

/-- A FastAPI `HTTPException(status_code, detail)`. -/
structure HTTPError where
  status : Nat
  detail : String
deriving DecidableEq

/-- The `result` payloads returned by the dispatcher branches. -/
inductive ToolResult where
  | createdFile (file_id : Nat) (name category ftype : String) (content : List Char)
  | modifiedFile (file_id : Nat) (name : String) (content : List Char)
  | createdTasks (tasks : List (Nat × String × String × String)) (count : Nat)
  | modifiedTask (task_id : Nat) (title : String) (updates : List (String × String))
deriving DecidableEq

/-- The dispatcher's success envelope. -/
structure ToolResponse where
  success : Bool
  tool_name : String
  result : ToolResult
  message : String
deriving DecidableEq

/-- The allow-list of `modify_task` updatable fields (server.py line 1589). -/
def allowed_keys : List String :=
  ["title", "description", "status", "priority", "importance", "difficulty",
   "quadrant"]

/-- Apply one allow-listed key/value of the `$set` patch to a task record. -/
def apply_task_field (t : TaskRec) (kv : String × String) : TaskRec :=
  match kv.1 with
  | "title" => { t with title := kv.2 }
  | "description" => { t with description := kv.2 }
  | "status" => { t with status := kv.2 }
  | "priority" => { t with priority := kv.2 }
  | "importance" => { t with importance := kv.2 }
  | "difficulty" => { t with difficulty := kv.2 }
  | "quadrant" => { t with quadrant := kv.2 }
  | _ => t

/-- The task record built for one item of `create_tasks` (server.py lines
1531-1554). The dict literal's initial `"quadrant": "q2"` is always
overwritten by the subsequent if/elif chain, whose value is stored. -/
def make_task (id : Nat) (project_id : String) (now : Nat) (item : TaskItem) :
    TaskRec :=
  { id := id
    project_id := project_id
    title := item.title.getD "Untitled Task"
    description := item.description.getD ""
    status := "todo"
    priority := item.priority.getD "medium"
    importance := item.importance.getD "medium"
    difficulty := "medium"
    quadrant :=
      if item.priority = some "high" ∧ item.importance = some "high" then "q1"
      else if item.importance = some "high" then "q2"
      else if item.priority = some "high" then "q3"
      else "q4"
    linked_files := []
    due_date := none
    created_at := now }

/-- The dispatch over `tool_name` after the project ownership check
(server.py lines 1450-1643). The Python `for` loop of `create_tasks`
inserts one record per item with sequentially drawn ids, modelled as a
batch append. -/
def dispatch_tool (store : Store) (now : Nat) (tool_name : String)
    (args : ToolArgs) (project_id : String) :
    Store × Except HTTPError ToolResponse :=
  if tool_name = "create_document" then
    let new_file : FileRec :=
      { id := store.nextId
        project_id := project_id
        name := args.name.getD "Untitled.md"
        category := args.category.getD "Docs"
        ftype := args.doc_type.getD "doc"
        content := args.content.getD []
        priority := 5
        tags := []
        pinned := false
        created_at := now
        last_edited := now }
    let store1 : Store :=
      { store with
          files := store.files ++ [new_file]
          nextId := store.nextId + 1
          projects := touch_project store.projects project_id now }
    (store1, .ok
      { success := true
        tool_name := tool_name
        result := .createdFile new_file.id new_file.name new_file.category
          new_file.ftype new_file.content
        message := "Created document: " ++ new_file.name })
  else if tool_name = "modify_document" then
    match args.file_id with
    | none => (store, .error ⟨400, "file_id is required"⟩)
    | some fid =>
      match find_file store.files fid with
      | none => (store, .error ⟨404, "File not found"⟩)
      | some existing_file =>
        if existing_file.project_id ≠ project_id then
          (store, .error ⟨403, "File does not belong to this project"⟩)
        else
          let new_content := args.new_content.getD existing_file.content
          let store1 : Store :=
            { store with
                files := updateFirst store.files (fun f => f.id = fid)
                  (fun f => { f with content := new_content, last_edited := now })
                projects := touch_project store.projects project_id now }
          (store1, .ok
            { success := true
              tool_name := tool_name
              result := .modifiedFile fid (args.file_name.getD existing_file.name)
                new_content
              message := "Updated document: "
                ++ args.file_name.getD existing_file.name })
  else if tool_name = "create_tasks" then
    let tasks_data := args.tasks.getD []
    if tasks_data = [] then
      (store, .error ⟨400, "tasks array is required"⟩)
    else
      let new_tasks := tasks_data.enum.map
        (fun p => make_task (store.nextId + p.1) project_id now p.2)
      let created := new_tasks.map (fun t => (t.id, t.title, t.priority, t.importance))
      ({ store with
          tasks := store.tasks ++ new_tasks
          nextId := store.nextId + tasks_data.length },
       .ok
        { success := true
          tool_name := tool_name
          result := .createdTasks created created.length
          message := "Created " ++ toString created.length ++ " task(s)" })
  else if tool_name = "modify_task" then
    match args.task_id with
    | none => (store, .error ⟨400, "task_id is required"⟩)
    | some tid =>
      match find_task store.tasks tid with
      | none => (store, .error ⟨404, "Task not found"⟩)
      | some existing_task =>
        if existing_task.project_id ≠ project_id then
          (store, .error ⟨403, "Task does not belong to this project"⟩)
        else
          let update_data := args.updates.filter (fun kv => kv.1 ∈ allowed_keys)
          let store1 : Store :=
            if update_data ≠ [] then
              { store with
                  tasks := updateFirst store.tasks (fun t => t.id = tid)
                    (fun t => update_data.foldl apply_task_field t) }
            else store
          (store1, .ok
            { success := true
              tool_name := tool_name
              result := .modifiedTask tid (args.task_title.getD existing_task.title)
                update_data
              message := "Updated task: "
                ++ args.task_title.getD existing_task.title })
  else if tool_name = "create_mockup" then
    let new_file : FileRec :=
      { id := store.nextId
        project_id := project_id
        name := args.name.getD "Untitled.jsx"
        category := "Mockups"
        ftype := "mockup"
        content := args.content.getD []
        priority := 5
        tags := ["ai-generated"]
        pinned := false
        created_at := now
        last_edited := now }
    let store1 : Store :=
      { store with
          files := store.files ++ [new_file]
          nextId := store.nextId + 1
          projects := touch_project store.projects project_id now }
    (store1, .ok
      { success := true
        tool_name := tool_name
        result := .createdFile new_file.id new_file.name new_file.category
          new_file.ftype new_file.content
        message := "Created UI mockup: " ++ new_file.name })
  else
    (store, .error ⟨400, "Unknown tool: " ++ tool_name⟩)

/-- server.py `execute_ai_tool` (lines 1438-1649): verify project ownership
first, then dispatch on the tool name. -/
def execute_ai_tool (store : Store) (now : Nat) (user_id : String)
    (tool_name : String) (args : ToolArgs) (project_id : String) :
    Store × Except HTTPError ToolResponse :=
  match find_project store.projects project_id user_id with
  | none => (store, .error ⟨404, "Project not found"⟩)
  | some _ => dispatch_tool store now tool_name args project_id

/-!
Document Patch Planner — src/backend/server.py, `edit_document`
(lines 1694-1959). The oracle (`genai_client.models.generate_content`) is
external: each call's outcome is an input. `none` models the call raising
(caught by the outer `except`, surfaced as a 500 whose detail is the
propagated exception text, opaque here); for the locate call a successful
reply is modelled by the outcome of JSON-parsing its cleaned text
(`ParseOutcome` above). Prompt strings flow only into the oracle and are
omitted, as are the display-only `edit_type`/`edit_summary` fields of the
response; the mockup/document distinction (`is_mockup`) changes only
prompt wording and is likewise omitted.
-/

structure EditRequest where
  tool_name : String
  file_id : Nat
  file_name : String
  project_id : String
deriving DecidableEq

structure EditResult where
  file_id : Nat
  file_name : String
  original_content : List Char
  modified_content : List Char
deriving DecidableEq

/-- server.py `edit_document`: ownership checks, then the per-operation
oracle protocol; returns the patch result without writing the store. -/
def edit_document (store : Store) (user_id : String) (req : EditRequest)
    (oracle_rewrite : Option (List Char))
    (oracle_step1 : Option ParseOutcome)
    (oracle_step2 : Option (List Char)) :
    Store × Except HTTPError EditResult :=
  match find_project store.projects req.project_id user_id with
  | none => (store, .error ⟨404, "Project not found"⟩)
  | some _ =>
    match find_file store.files req.file_id with
    | none => (store, .error ⟨404, "File not found"⟩)
    | some file =>
      if file.project_id ≠ req.project_id then
        (store, .error ⟨403, "File does not belong to this project"⟩)
      else
        let original_content := file.content
        let base_tool_name := pyReplaceS req.tool_name "_mockup" "_document"
        if base_tool_name = "rewrite_document" then
          match oracle_rewrite with
          | none => (store, .error ⟨500, "oracle call raised"⟩)
          | some text =>
            (store, .ok
              ⟨req.file_id, req.file_name, original_content, pyStrip text⟩)
        else if base_tool_name = "insert_in_document" then
          match oracle_step1 with
          | none => (store, .error ⟨500, "oracle call raised"⟩)
          | some outcome =>
            let insert_line :=
              parse_insert_line outcome (pyLineCount original_content : Nat)
            match oracle_step2 with
            | none => (store, .error ⟨500, "oracle call raised"⟩)
            | some text2 =>
              (store, .ok
                ⟨req.file_id, req.file_name, original_content,
                 apply_insert original_content insert_line (pyStrip text2)⟩)
        else if base_tool_name = "replace_in_document" then
          match oracle_step1 with
          | none => (store, .error ⟨500, "oracle call raised"⟩)
          | some outcome =>
            let range :=
              parse_replace_range outcome (pyLineCount original_content : Nat)
            match oracle_step2 with
            | none => (store, .error ⟨500, "oracle call raised"⟩)
            | some text2 =>
              (store, .ok
                ⟨req.file_id, req.file_name, original_content,
                 apply_replace original_content range.1 range.2 (pyStrip text2)⟩)
        else
          (store, .error ⟨400, "Unknown edit tool: " ++ req.tool_name⟩)

/-!
Concrete instances used to evaluate the theorems on closed inputs.
-/

def demoProject : ProjectRec := ⟨"p", "u", 0⟩

def demoStore : Store := ⟨[demoProject], [], [], 0⟩

def itemQ1 : TaskItem := ⟨some "t1", none, some "high", some "high"⟩

def itemQ2 : TaskItem := ⟨some "t2", none, none, some "high"⟩

def itemQ3 : TaskItem := ⟨some "t3", none, some "high", none⟩

def itemQ4 : TaskItem := ⟨some "t4", none, none, none⟩

def demoItems : List TaskItem := [itemQ1, itemQ2, itemQ3, itemQ4]

def demoTaskArgs : ToolArgs := { tasks := some demoItems }

def noTitleArgs : ToolArgs := { tasks := some [⟨none, none, none, none⟩] }

def emptyTasksArgs : ToolArgs := { tasks := some [] }

def mismatchTask : TaskRec :=
  { id := 5, project_id := "other", title := "t", description := "",
    status := "todo", priority := "medium", importance := "medium",
    difficulty := "medium", quadrant := "q4", linked_files := [],
    due_date := none, created_at := 0 }

def storeWithTask : Store := ⟨[demoProject], [], [mismatchTask], 6⟩

def demoFile : FileRec :=
  { id := 1, project_id := "p", name := "doc.md", category := "Docs",
    ftype := "doc", content := "a\nb".data, priority := 5, tags := [],
    pinned := false, created_at := 0, last_edited := 0 }

def storeWithFile : Store := ⟨[demoProject], [demoFile], [], 2⟩

def reqReplace : EditRequest := ⟨"replace_in_document", 1, "doc.md", "p"⟩

def reqRewrite : EditRequest := ⟨"rewrite_document", 1, "doc.md", "p"⟩

theorem splitNL_ne_nil (s : List Char) : splitNL s ≠ [] := by
  induction s with
  | nil => simp [splitNL]
  | cons c rest ih =>
    simp only [splitNL]
    split
    · simp
    · split
      · simp
      · simp

theorem splitNL_cons_nl (rest : List Char) :
    splitNL (NL :: rest) = [] :: splitNL rest := by
  simp [splitNL]

theorem splitNL_cons_not_nl (c : Char) (rest : List Char) (hc : c ≠ NL)
    (l : List Char) (ls : List (List Char)) (h : splitNL rest = l :: ls) :
    splitNL (c :: rest) = (c :: l) :: ls := by
  simp only [splitNL, if_neg hc, h]

/-- Splitting a concatenation around an explicit newline splits each side
independently. -/
theorem splitNL_append_nl (a b : List Char) :
    splitNL (a ++ NL :: b) = splitNL a ++ splitNL b := by
  induction a with
  | nil => simp [splitNL_cons_nl, splitNL]
  | cons c rest ih =>
    by_cases hc : c = NL
    · subst hc
      rw [List.cons_append, splitNL_cons_nl, splitNL_cons_nl, ih, List.cons_append]
    · cases h : splitNL rest with
      | nil => exact absurd h (splitNL_ne_nil rest)
      | cons l ls =>
        have h2 : splitNL (rest ++ NL :: b) = l :: (ls ++ splitNL b) := by
          rw [ih, h, List.cons_append]
        rw [List.cons_append, splitNL_cons_not_nl c _ hc _ _ h2,
            splitNL_cons_not_nl c _ hc _ _ h, List.cons_append]

/-- Every piece produced by `splitNL` is newline-free. -/
theorem splitNL_pieces_nl_free (s : List Char) : ∀ p ∈ splitNL s, NL ∉ p := by
  induction s with
  | nil => simp [splitNL]
  | cons c rest ih =>
    by_cases hc : c = NL
    · subst hc
      rw [splitNL_cons_nl]
      intro p hp
      rcases List.mem_cons.mp hp with h | h
      · subst h; simp
      · exact ih p h
    · cases h : splitNL rest with
      | nil => exact absurd h (splitNL_ne_nil rest)
      | cons l ls =>
        rw [splitNL_cons_not_nl c _ hc _ _ h]
        intro p hp
        rcases List.mem_cons.mp hp with h2 | h2
        · subst h2
          intro hmem
          rcases List.mem_cons.mp hmem with h3 | h3
          · exact hc h3.symm
          · exact ih l (h ▸ List.mem_cons_self l ls) h3
        · exact ih p (h ▸ List.mem_cons_of_mem l h2)

/-- A newline-free string splits to the single piece. -/
theorem splitNL_nl_free (p : List Char) (h : NL ∉ p) : splitNL p = [p] := by
  induction p with
  | nil => simp [splitNL]
  | cons c rest ih =>
    have hc : c ≠ NL := fun he => h (he ▸ List.mem_cons_self c rest)
    have hrest : NL ∉ rest := fun hm => h (List.mem_cons_of_mem c hm)
    rw [splitNL_cons_not_nl c rest hc rest [] (ih hrest)]

/-- Splitting the join of a nonempty list of newline-free pieces recovers the
pieces. -/
theorem splitNL_joinNL (l : List (List Char)) (hne : l ≠ [])
    (hfree : ∀ p ∈ l, NL ∉ p) : splitNL (joinNL l) = l := by
  induction l with
  | nil => exact absurd rfl hne
  | cons p ls ih =>
    cases ls with
    | nil =>
      rw [joinNL, splitNL_nl_free p (hfree p (List.mem_cons_self p []))]
    | cons q ls' =>
      rw [joinNL, splitNL_append_nl,
          splitNL_nl_free p (hfree p (List.mem_cons_self p (q :: ls'))),
          ih (by simp) (fun r hr => hfree r (List.mem_cons_of_mem p hr))]
      rfl

theorem pyLineCount_pos (s : List Char) : 1 ≤ pyLineCount s :=
  List.length_pos.mpr (splitNL_ne_nil s)

theorem pyIndex_nonneg (len : Nat) (i : Int) (h : 0 ≤ i) :
    pyIndex len i = i.toNat := by
  unfold pyIndex
  rw [if_neg (by omega)]

theorem splitNL_joinNL_take (s : List Char) (m : Nat) (hm : 1 ≤ m) :
    splitNL (joinNL ((splitNL s).take m)) = (splitNL s).take m := by
  apply splitNL_joinNL
  · rw [Ne, List.take_eq_nil_iff]
    push_neg
    exact ⟨by omega, splitNL_ne_nil s⟩
  · exact fun p hp => splitNL_pieces_nl_free s p (List.take_subset m _ hp)

theorem splitNL_joinNL_drop (s : List Char) (m : Nat)
    (hm : m < (splitNL s).length) :
    splitNL (joinNL ((splitNL s).drop m)) = (splitNL s).drop m := by
  apply splitNL_joinNL
  · rw [Ne, List.drop_eq_nil_iff]
    omega
  · exact fun p hp => splitNL_pieces_nl_free s p (List.drop_subset m _ hp)

/-- C9: applyInsert preserves the original's lines exactly — the line list
of the result is the original's line list with the insertion's line list
spliced in at position clamp(n, 0, lineCount); every original line appears
exactly once, in order, unmodified. -/
theorem apply_insert_splices_lines (original new : List Char) (n : Int) :
    splitNL (apply_insert original n new) =
      (splitNL original).take (clampIdx n (pyLineCount original))
        ++ splitNL new
        ++ (splitNL original).drop (clampIdx n (pyLineCount original)) := by
  have hlen : 1 ≤ pyLineCount original := pyLineCount_pos original
  simp only [apply_insert]
  by_cases h0 : n ≤ 0
  · rw [if_pos h0]
    have hc : clampIdx n (pyLineCount original) = 0 := by
      unfold clampIdx
      omega
    rw [hc, splitNL_append_nl]
    simp
  · rw [if_neg h0]
    by_cases h1 : (((splitNL original).length : Int)) ≤ n
    · rw [if_pos h1]
      have hc : clampIdx n (pyLineCount original) = pyLineCount original := by
        unfold clampIdx pyLineCount
        unfold pyLineCount at hlen
        omega
      rw [hc, splitNL_append_nl]
      unfold pyLineCount
      rw [List.take_length, List.drop_length]
      simp
    · rw [if_neg h1]
      have hn0 : 0 ≤ n := by omega
      have hc : clampIdx n (pyLineCount original) = n.toNat := by
        unfold clampIdx pyLineCount
        unfold pyLineCount at hlen
        omega
      have hm1 : 1 ≤ n.toNat := by omega
      have hm2 : n.toNat < (splitNL original).length := by omega
      rw [hc]
      unfold pyTake pyDrop
      rw [pyIndex_nonneg _ _ hn0, splitNL_append_nl, splitNL_append_nl,
          splitNL_joinNL_take original n.toNat hm1,
          splitNL_joinNL_drop original n.toNat hm2]
      simp

/-- C6: applyInsert clamps out-of-range line numbers instead of failing —
`afterLine <= 0` prepends the insertion, `afterLine >= lineCount` appends
it; the function is total on all integers. -/
theorem apply_insert_out_of_range (original new : List Char) (n : Int) :
    (n ≤ 0 → apply_insert original n new = new ++ NL :: original) ∧
    ((pyLineCount original : Int) ≤ n →
      apply_insert original n new = original ++ NL :: new) := by
  constructor
  · intro h
    simp only [apply_insert]
    rw [if_pos h]
  · intro h
    have hlen : 1 ≤ pyLineCount original := pyLineCount_pos original
    have h0 : ¬ n ≤ 0 := by omega
    simp only [apply_insert]
    rw [if_neg h0, if_pos (show (((splitNL original).length : Nat) : Int) ≤ n from h)]

theorem apply_insert_out_of_range_witness :
    apply_insert "a".data 0 "X".data = "X".data ++ NL :: "a".data ∧
    apply_insert "a".data 5 "X".data = "a".data ++ NL :: "X".data :=
  ⟨(apply_insert_out_of_range "a".data "X".data 0).1 (by decide),
   (apply_insert_out_of_range "a".data "X".data 5).2 (by decide)⟩

/-- C5: full-document replacement is exact —
`applyReplace(original, 1, lineCount, X) = X`, with no content of the
original retained and no leading or trailing blank line added. -/
theorem apply_replace_full_replace (original new : List Char) :
    apply_replace original 1 (pyLineCount original) new = new := by
  simp only [apply_replace]
  have h1 : max 0 ((1:Int) - 1) = 0 := by omega
  have h2 : min (((splitNL original).length : Int)) ((pyLineCount original : Nat) : Int)
      = ((splitNL original).length : Int) := by
    unfold pyLineCount
    omega
  rw [h1, h2]
  have h3 : pyTake (splitNL original) 0 = [] := by
    unfold pyTake
    rw [pyIndex_nonneg _ _ (by omega)]
    simp
  have h4 : pyDrop (splitNL original) (((splitNL original).length : Int)) = [] := by
    unfold pyDrop
    rw [pyIndex_nonneg _ _ (by omega)]
    simp
  rw [h3, h4]
  simp [joinNL]

/-- C2 counterexample: on `original = "A\nB"`, `startLine = 3`, `endLine = 1`
the converted indices satisfy start = 2 >= 1 = end, yet the result is
`"A\nB\nX\nB"`: the line `"B"` of the original appears twice, so the claim
that every original line still appears exactly once (replacement inserted
at `start`, nothing removed) is false. -/
theorem apply_replace_degenerate_cex :
    (min ((pyLineCount "A\nB".data : Nat) : Int) 1 ≤ max 0 ((3:Int) - 1)) ∧
    apply_replace "A\nB".data 3 1 "X".data = "A\nB\nX\nB".data ∧
    splitNL (apply_replace "A\nB".data 3 1 "X".data) ≠
      (splitNL "A\nB".data).take 2 ++ splitNL "X".data
        ++ (splitNL "A\nB".data).drop 2 ∧
    (splitNL (apply_replace "A\nB".data 3 1 "X".data)).count "B".data = 2 ∧
    (splitNL "A\nB".data).count "B".data = 1 := by decide

/-- C2 amended: when the converted indices are equal (start = end) and each
flanking segment is a non-empty string unless its line range is empty
(start = 0, resp. end = lineCount), applyReplace inserts the replacement's
lines at position start with nothing removed: every original line appears
exactly once, in order. (When start > end, the lines with index in
[end, start) appear twice; a flanking segment that joins to the empty
string is omitted, dropping an empty line.) -/
theorem apply_replace_insert_only (original new : List Char) (a b : Int)
    (hidx : max 0 (a - 1) = min ((pyLineCount original : Nat) : Int) b)
    (hbefore : (max 0 (a - 1)).toNat = 0 ∨
      joinNL ((splitNL original).take (max 0 (a - 1)).toNat) ≠ [])
    (hafter : pyLineCount original ≤ (max 0 (a - 1)).toNat ∨
      joinNL ((splitNL original).drop (max 0 (a - 1)).toNat) ≠ []) :
    splitNL (apply_replace original a b new) =
      (splitNL original).take (max 0 (a - 1)).toNat ++ splitNL new
        ++ (splitNL original).drop (max 0 (a - 1)).toNat := by
  have hlen : 1 ≤ pyLineCount original := pyLineCount_pos original
  simp only [apply_replace]
  have hmin : min (((splitNL original).length : Int)) b = max 0 (a - 1) := by
    unfold pyLineCount at hidx
    omega
  rw [hmin]
  set s : Nat := (max 0 (a - 1)).toNat with hs
  have hsnn : (0:Int) ≤ max 0 (a - 1) := by omega
  have htake : pyTake (splitNL original) (max 0 (a - 1)) = (splitNL original).take s := by
    unfold pyTake
    rw [pyIndex_nonneg _ _ hsnn]
  have hdrop : pyDrop (splitNL original) (max 0 (a - 1)) = (splitNL original).drop s := by
    unfold pyDrop
    rw [pyIndex_nonneg _ _ hsnn]
  rw [htake, hdrop]
  rcases hbefore with hb0 | hbne
  · -- start = 0: before is the empty join and is omitted
    have hafterO : joinNL (splitNL original) ≠ [] := by
      rw [hb0, List.drop_zero] at hafter
      rcases hafter with h | h
      · exact absurd h (by omega)
      · exact h
    rw [hb0]
    simp only [List.take_zero, List.drop_zero, joinNL, eq_self_iff_true, if_true,
      List.nil_append, if_neg hafterO, List.singleton_append]
    rw [splitNL_append_nl,
        splitNL_joinNL (splitNL original) (splitNL_ne_nil original)
          (splitNL_pieces_nl_free original)]
  · rw [if_neg hbne]
    have hs1 : 1 ≤ s := by
      by_contra hc
      push_neg at hc
      interval_cases s
      · exact hbne (by simp [joinNL])
    by_cases hslen : (splitNL original).length ≤ s
    · -- start beyond the last line: after is empty and omitted
      have hdnil : (splitNL original).drop s = [] := by
        rw [List.drop_eq_nil_iff]
        omega
      rw [hdnil]
      simp only [joinNL, eq_self_iff_true, if_true, List.append_nil,
        List.singleton_append]
      rw [splitNL_append_nl, splitNL_joinNL_take original s hs1]
    · -- 1 <= start < lineCount: both flanks present
      push_neg at hslen
      have hafter2 : joinNL ((splitNL original).drop s) ≠ [] := by
        rcases hafter with h | h
        · unfold pyLineCount at h
          omega
        · exact h
      rw [if_neg hafter2]
      have hj : joinNL ([joinNL ((splitNL original).take s)] ++ [new]
            ++ [joinNL ((splitNL original).drop s)]) =
          joinNL ((splitNL original).take s) ++ NL ::
            (new ++ NL :: joinNL ((splitNL original).drop s)) := by
        simp [joinNL]
      rw [hj, splitNL_append_nl, splitNL_append_nl,
          splitNL_joinNL_take original s hs1,
          splitNL_joinNL_drop original s hslen]
      exact (List.append_assoc _ _ _).symm

theorem apply_replace_insert_only_witness :
    splitNL (apply_replace "a\nb".data 2 1 "X".data) =
      (splitNL "a\nb".data).take (max 0 ((2:Int) - 1)).toNat ++ splitNL "X".data
        ++ (splitNL "a\nb".data).drop (max 0 ((2:Int) - 1)).toNat :=
  apply_replace_insert_only "a\nb".data "X".data 2 1 (by decide) (by decide)
    (by decide)

/-- C1: quadrant derivation in create_tasks follows the decision table with
first-match-wins: the tasks stored for the items are exactly the
`make_task` records, and each record's quadrant is q1 when priority and
importance are both high, q2 when only importance is high, q3 when only
priority is high, and q4 otherwise (including missing priority/importance,
which default to medium and fall through to q4). -/
theorem create_tasks_quadrant_table (store : Store) (now : Nat)
    (uid pid : String) (args : ToolArgs) (p : ProjectRec)
    (hp : find_project store.projects pid uid = some p)
    (items : List TaskItem) (hitems : args.tasks = some items)
    (hne : items ≠ []) :
    ((execute_ai_tool store now uid "create_tasks" args pid).1).tasks =
      store.tasks ++ items.enum.map
        (fun q => make_task (store.nextId + q.1) pid now q.2) ∧
    ∀ item ∈ items, ∀ id,
      (item.priority = some "high" ∧ item.importance = some "high" →
        (make_task id pid now item).quadrant = "q1") ∧
      (item.importance = some "high" ∧ item.priority ≠ some "high" →
        (make_task id pid now item).quadrant = "q2") ∧
      (item.priority = some "high" ∧ item.importance ≠ some "high" →
        (make_task id pid now item).quadrant = "q3") ∧
      (item.priority ≠ some "high" ∧ item.importance ≠ some "high" →
        (make_task id pid now item).quadrant = "q4") := by
  constructor
  · unfold execute_ai_tool
    rw [hp]
    unfold dispatch_tool
    rw [if_neg (by decide), if_neg (by decide), if_pos rfl]
    simp only [hitems, Option.getD_some]
    rw [if_neg hne]
  · intro item _ id
    refine ⟨?_, ?_, ?_, ?_⟩
    · rintro ⟨h1, h2⟩
      simp only [make_task]
      rw [if_pos ⟨h1, h2⟩]
    · rintro ⟨h1, h2⟩
      simp only [make_task]
      rw [if_neg (fun hc => h2 hc.1), if_pos h1]
    · rintro ⟨h1, h2⟩
      simp only [make_task]
      rw [if_neg (fun hc => h2 hc.2), if_neg h2, if_pos h1]
    · rintro ⟨h1, h2⟩
      simp only [make_task]
      rw [if_neg (fun hc => h1 hc.1), if_neg h2, if_neg h1]

theorem create_tasks_quadrant_table_witness :
    ((execute_ai_tool demoStore 0 "u" "create_tasks" demoTaskArgs "p").1).tasks =
      demoStore.tasks ++ demoItems.enum.map
        (fun q => make_task (demoStore.nextId + q.1) "p" 0 q.2) ∧
    (make_task 0 "p" 0 itemQ1).quadrant = "q1" ∧
    (make_task 1 "p" 0 itemQ2).quadrant = "q2" ∧
    (make_task 2 "p" 0 itemQ3).quadrant = "q3" ∧
    (make_task 3 "p" 0 itemQ4).quadrant = "q4" := by
  have h := create_tasks_quadrant_table demoStore 0 "u" "p" demoTaskArgs
    demoProject rfl demoItems rfl (by decide)
  exact ⟨h.1,
    (h.2 itemQ1 (by decide) 0).1 ⟨rfl, rfl⟩,
    (h.2 itemQ2 (by decide) 1).2.1 ⟨rfl, by decide⟩,
    (h.2 itemQ3 (by decide) 2).2.2.1 ⟨rfl, by decide⟩,
    (h.2 itemQ4 (by decide) 3).2.2.2 ⟨by decide, by decide⟩⟩

/-- C4 counterexample: a create_tasks item lacking a title is not rejected —
with one title-less item the call succeeds and stores a task with the
default title "Untitled Task". -/
theorem create_tasks_missing_title_cex :
    (execute_ai_tool demoStore 0 "u" "create_tasks" noTitleArgs "p").2 =
      Except.ok
        { success := true
          tool_name := "create_tasks"
          result := ToolResult.createdTasks
            [(0, "Untitled Task", "medium", "medium")] 1
          message := "Created 1 task(s)" } ∧
    ((execute_ai_tool demoStore 0 "u" "create_tasks" noTitleArgs "p").1).tasks =
      [make_task 0 "p" 0 ⟨none, none, none, none⟩] ∧
    (make_task 0 "p" 0 ⟨none, none, none, none⟩).title = "Untitled Task" :=
  ⟨rfl, rfl, rfl⟩

/-- C4 amended: create_tasks requires a non-empty tasks list — an empty or
missing list signals the missing-argument error with no task persisted;
but a task item lacking a title is not rejected: it is created with the
default title "Untitled Task". -/
theorem create_tasks_validation (store : Store) (now : Nat) (uid pid : String)
    (args : ToolArgs) (p : ProjectRec)
    (hp : find_project store.projects pid uid = some p) :
    ((args.tasks = none ∨ args.tasks = some []) →
      execute_ai_tool store now uid "create_tasks" args pid =
        (store, .error ⟨400, "tasks array is required"⟩)) ∧
    (∀ items, args.tasks = some items → items ≠ [] →
      ((execute_ai_tool store now uid "create_tasks" args pid).1).tasks =
        store.tasks ++ items.enum.map
          (fun q => make_task (store.nextId + q.1) pid now q.2)) ∧
    (∀ id item, item.title = none →
      (make_task id pid now item).title = "Untitled Task") := by
  refine ⟨?_, ?_, ?_⟩
  · intro h
    unfold execute_ai_tool
    rw [hp]
    unfold dispatch_tool
    rw [if_neg (by decide), if_neg (by decide), if_pos rfl]
    rcases h with h | h <;>
      simp only [h, Option.getD_some, Option.getD_none, if_true]
  · intro items hitems hne
    unfold execute_ai_tool
    rw [hp]
    unfold dispatch_tool
    rw [if_neg (by decide), if_neg (by decide), if_pos rfl]
    simp only [hitems, Option.getD_some]
    rw [if_neg hne]
  · intro id item h
    simp only [make_task, h, Option.getD_none]

theorem create_tasks_validation_witness :
    execute_ai_tool demoStore 0 "u" "create_tasks" emptyTasksArgs "p" =
      (demoStore, .error ⟨400, "tasks array is required"⟩) ∧
    (make_task 0 "p" 0 ⟨none, none, none, none⟩).title = "Untitled Task" := by
  have h := create_tasks_validation demoStore 0 "u" "p" emptyTasksArgs
    demoProject rfl
  exact ⟨h.1 (Or.inr rfl), h.2.2 0 ⟨none, none, none, none⟩ rfl⟩

/-- C7: modify_task distinguishes ownership mismatch from absence — a task
that exists under a different project yields the 403 project-mismatch
error, distinct from the 404 not-found error yielded when no task with the
id exists. -/
theorem modify_task_mismatch_vs_absence (store : Store) (now : Nat)
    (uid pid : String) (args : ToolArgs) (p : ProjectRec) (tid : Nat)
    (hp : find_project store.projects pid uid = some p)
    (hid : args.task_id = some tid) :
    (∀ t, find_task store.tasks tid = some t → t.project_id ≠ pid →
      (execute_ai_tool store now uid "modify_task" args pid).2 =
        .error ⟨403, "Task does not belong to this project"⟩) ∧
    (find_task store.tasks tid = none →
      (execute_ai_tool store now uid "modify_task" args pid).2 =
        .error ⟨404, "Task not found"⟩) ∧
    (⟨403, "Task does not belong to this project"⟩ : HTTPError) ≠
      ⟨404, "Task not found"⟩ := by
  refine ⟨?_, ?_, by decide⟩
  · intro t ht hmis
    unfold execute_ai_tool
    rw [hp]
    unfold dispatch_tool
    rw [if_neg (by decide), if_neg (by decide), if_neg (by decide), if_pos rfl]
    simp only [hid, ht]
    rw [if_pos hmis]
  · intro ht
    unfold execute_ai_tool
    rw [hp]
    unfold dispatch_tool
    rw [if_neg (by decide), if_neg (by decide), if_neg (by decide), if_pos rfl]
    simp only [hid, ht]

theorem modify_task_mismatch_vs_absence_witness :
    (execute_ai_tool storeWithTask 0 "u" "modify_task"
        { task_id := some 5 } "p").2 =
      .error ⟨403, "Task does not belong to this project"⟩ ∧
    (execute_ai_tool storeWithTask 0 "u" "modify_task"
        { task_id := some 9 } "p").2 =
      .error ⟨404, "Task not found"⟩ :=
  ⟨(modify_task_mismatch_vs_absence storeWithTask 0 "u" "p"
      { task_id := some 5 } demoProject 5 rfl rfl).1 mismatchTask rfl
      (by decide),
   (modify_task_mismatch_vs_absence storeWithTask 0 "u" "p"
      { task_id := some 9 } demoProject 9 rfl rfl).2.1 rfl⟩

/-- C10: the Tool Dispatcher checks project existence and ownership before
everything else — when no project with the given id is owned by the user,
every request (any tool name, any arguments) yields the 404 error with the
store unchanged; the unknown-tool error can only arise for an existing,
owned project. -/
theorem dispatcher_project_check_first (store : Store) (now : Nat)
    (uid tool : String) (args : ToolArgs) (pid : String) :
    (find_project store.projects pid uid = none →
      execute_ai_tool store now uid tool args pid =
        (store, .error ⟨404, "Project not found"⟩)) ∧
    (∀ e, (execute_ai_tool store now uid tool args pid).2 = .error e →
      e = ⟨400, "Unknown tool: " ++ tool⟩ →
      ∃ p, find_project store.projects pid uid = some p) := by
  constructor
  · intro h
    unfold execute_ai_tool
    rw [h]
  · intro e he hu
    cases hfp : find_project store.projects pid uid with
    | none =>
      unfold execute_ai_tool at he
      rw [hfp] at he
      simp only [] at he
      injection he with he2
      rw [← he2] at hu
      have hst := congrArg HTTPError.status hu
      dsimp only [] at hst
      exact absurd hst (by decide)
    | some p => exact ⟨p, rfl⟩

theorem dispatcher_project_check_first_witness :
    execute_ai_tool ⟨[], [], [], 0⟩ 0 "u" "create_document" {} "p" =
      (⟨[], [], [], 0⟩, .error ⟨404, "Project not found"⟩) :=
  (dispatcher_project_check_first ⟨[], [], [], 0⟩ 0 "u" "create_document"
    {} "p").1 rfl

/-- C3 counterexample: a reply that parses to a JSON object lacking the
expected field `end_line` does not yield the fallback location
(1, documentLineCount) — with `{"start_line": 3}` on a 5-line document the
parse yields (3, 5), keeping the supplied start. -/
theorem parse_range_partial_field_cex :
    ([("start_line", (3:Int))].find? (fun kv => kv.1 = "end_line")) = none ∧
    parse_replace_range (.object [("start_line", 3)]) 5 = (3, 5) ∧
    parse_replace_range (.object [("start_line", 3)]) 5 ≠ (1, 5) := by
  decide

/-- C3 amended: location parsing is total with per-field fallbacks — a reply
that is not a strict JSON object yields the full fallback (point mode:
documentLineCount; range mode: (1, documentLineCount)); a JSON object
missing a field gets that field's own default (insert_after_line →
lineCount, start_line → 1, end_line → lineCount) while a present field is
kept; no error is raised and the edit request proceeds with the parsed
location rather than aborting. -/
theorem parse_location_fallbacks (L : Int) (fields : List (String × Int))
    (store : Store) (uid : String) (req : EditRequest) (f : FileRec)
    (s2 : List Char) (p : ProjectRec) :
    (parse_insert_line .failure L = L) ∧
    (parse_insert_line .nonObject L = L) ∧
    (fields.find? (fun kv => kv.1 = "insert_after_line") = none →
      parse_insert_line (.object fields) L = L) ∧
    (parse_replace_range .failure L = (1, L)) ∧
    (parse_replace_range .nonObject L = (1, L)) ∧
    (fields.find? (fun kv => kv.1 = "start_line") = none →
      (parse_replace_range (.object fields) L).1 = 1) ∧
    (fields.find? (fun kv => kv.1 = "end_line") = none →
      (parse_replace_range (.object fields) L).2 = L) ∧
    (find_project store.projects req.project_id uid = some p →
      find_file store.files req.file_id = some f →
      f.project_id = req.project_id →
      pyReplaceS req.tool_name "_mockup" "_document" = "replace_in_document" →
      (edit_document store uid req none (some .failure) (some s2)).2 =
        .ok ⟨req.file_id, req.file_name, f.content,
          apply_replace f.content 1 (pyLineCount f.content : Nat)
            (pyStrip s2)⟩) := by
  refine ⟨rfl, rfl, ?_, rfl, rfl, ?_, ?_, ?_⟩
  · intro h
    simp only [parse_insert_line, dict_get, h]
  · intro h
    simp only [parse_replace_range, dict_get, h]
  · intro h
    simp only [parse_replace_range, dict_get, h]
  · intro h1 h2 h3 h4
    unfold edit_document
    rw [h1, h2]
    simp only []
    rw [if_neg (fun hne => hne h3), h4,
        if_neg (by decide), if_neg (by decide), if_pos rfl]
    rfl

theorem parse_location_fallbacks_witness :
    parse_insert_line .failure 5 = 5 ∧
    parse_insert_line (.object []) 5 = 5 ∧
    (parse_replace_range (.object []) 5).1 = 1 ∧
    (parse_replace_range (.object []) 5).2 = 5 ∧
    (edit_document storeWithFile "u" reqReplace none (some .failure)
        (some "X".data)).2 =
      .ok ⟨reqReplace.file_id, reqReplace.file_name, demoFile.content,
        apply_replace demoFile.content 1 (pyLineCount demoFile.content : Nat)
          (pyStrip "X".data)⟩ := by
  have h := parse_location_fallbacks 5 [] storeWithFile "u" reqReplace
    demoFile "X".data demoProject
  exact ⟨h.1, h.2.2.1 rfl, h.2.2.2.2.2.1 rfl, h.2.2.2.2.2.2.1 rfl,
    h.2.2.2.2.2.2.2 rfl rfl rfl (by decide)⟩

/-- C8: the Document Patch Planner never writes the record store — for every
edit request and oracle outcome the store after the request equals the
store before it, and a returned PatchResult's original_content is
byte-identical to the file content read from the store at request time. -/
theorem edit_document_frame (store : Store) (uid : String) (req : EditRequest)
    (r1 : Option (List Char)) (s1 : Option ParseOutcome)
    (s2 : Option (List Char)) :
    (edit_document store uid req r1 s1 s2).1 = store ∧
    (∀ res f, (edit_document store uid req r1 s1 s2).2 = .ok res →
      find_file store.files req.file_id = some f →
      res.original_content = f.content) := by
  constructor
  · unfold edit_document
    dsimp only
    repeat' split
    all_goals rfl
  · intro res f h hf
    unfold edit_document at h
    rw [hf] at h
    dsimp only at h
    repeat' split at h
    all_goals simp_all
    all_goals (rw [← h])

theorem edit_document_frame_witness :
    (edit_document storeWithFile "u" reqRewrite (some "new".data) none
        none).1 = storeWithFile ∧
    (⟨1, "doc.md", "a\nb".data, pyStrip "new".data⟩ :
        EditResult).original_content = demoFile.content :=
  ⟨(edit_document_frame storeWithFile "u" reqRewrite (some "new".data)
      none none).1,
   (edit_document_frame storeWithFile "u" reqRewrite (some "new".data)
      none none).2 ⟨1, "doc.md", "a\nb".data, pyStrip "new".data⟩ demoFile
      rfl rfl⟩

end ForgeAI
